import Mathlib

/-
Shallow embedding of the browser-side session/analysis controller in
static/app.js.  JavaScript is single-threaded: each event handler, and each
continuation segment of an async function between two await points, runs
atomically against the shared mutable state.  We therefore model the page
state as a record `AppState` and every such atomic segment as a pure
function on it.  An async function `f` with one `await fetch(...)` becomes
two functions: `fEntry : AppState -> AppState × Bool` (the synchronous
prefix; the Bool records whether the fetch was actually issued) and
`fResume : Option (Bool × Body) -> AppState -> ...` (the continuation run
when the response arrives: `none` models a network error caught by the
surrounding try/catch, `some (ok, body)` models a parsed response together
with `response.ok`).  Interleavings of concurrent in-flight requests are
expressed by composing these segment functions in the order the event loop
would run them.
-/

namespace Coeqwal

/-- Kinds of entries appended to the chatbox (the message log): the
`addMessage` types "user", "bot", "status" plus the "analysis-json"
result entry. -/
inductive MsgKind
  | user
  | bot
  | status
  | analysisJson
deriving DecidableEq, BEq, Repr

/-- One chatbox entry. -/
structure Msg where
  kind : MsgKind
  content : String
deriving DecidableEq, Repr

/-- JavaScript object property assignment `obj[k] = v`: overwrite the value
at an existing key, otherwise add the key.  Keys in a JS object are unique,
so replacing the first occurrence is exact. -/
def objSet : List (String × String) → String → String → List (String × String)
  | [], k, v => [(k, v)]
  | p :: rest, k, v => if p.1 = k then (k, v) :: rest else p :: objSet rest k v

/-- JavaScript `x || d` applied to a possibly-undefined string `x`:
both `undefined` and the empty string are falsy. -/
def jsOr (o : Option String) (d : String) : String :=
  match o with
  | some x => if x = "" then d else x
  | none => d

/-- JavaScript template interpolation of a possibly-undefined value:
`undefined` prints as the literal string "undefined". -/
def jsShow (o : Option String) : String :=
  match o with
  | some x => x
  | none => "undefined"

/-- `str.replace(/_/g, " ")`, written on the character list so that it
evaluates by kernel reduction. -/
def replaceUnderscores (t : String) : String :=
  String.mk (t.data.map (fun c => if c = '_' then ' ' else c))

/-- JavaScript `str.startsWith(p)`, written on the character lists so that
it evaluates by kernel reduction. -/
def jsStartsWith (t p : String) : Bool :=
  p.data.isPrefixOf t.data

/-- JavaScript `str.trim()`: strip leading and trailing whitespace,
written on the character list so that it evaluates by kernel reduction. -/
def jsTrim (t : String) : String :=
  String.mk
    (((t.data.dropWhile Char.isWhitespace).reverse.dropWhile Char.isWhitespace).reverse)

/-- The mutable page state of static/app.js: the module-level variables
(`currentSessionId`, `isProcessing`, `customPrompts`,
`analysisPollingTimer`, `analysisResultFetched`), the chatbox log, the two
status text nodes, the two input values, the focus-select option list
(value, displayed text), and the disabled/visible flags the code assigns
on the controls. -/
structure AppState where
  currentSessionId : Option String
  isProcessing : Bool
  customPrompts : List (String × String)
  analysisPollingTimer : Option Nat
  analysisResultFetched : Bool
  chatbox : List Msg
  uploadStatusText : String
  cleanupStatusText : String
  queryInputValue : String
  analysisFocusValue : String
  focusOptions : List (String × String)
  queryInputDisabled : Bool
  sendButtonDisabled : Bool
  analysisFocusDisabled : Bool
  uploadButtonDisabled : Bool
  fileInputDisabled : Bool
  endChatButtonDisabled : Bool
  thinkingVisible : Bool
deriving DecidableEq, Repr

/-- `addMessage(content, type)`: append one entry to the chatbox. -/
def addMessage (content : String) (kind : MsgKind) (s : AppState) : AppState :=
  { s with chatbox := s.chatbox ++ [⟨kind, content⟩] }

/-- `setProcessingState(processing, isAnalysisRunning)`. -/
def setProcessingState (processing isAnalysisRunning : Bool) (s : AppState) : AppState :=
  let sessionActive := s.currentSessionId.isSome
  let canQuery := !processing && sessionActive && !isAnalysisRunning
  { s with
    isProcessing := processing
    queryInputDisabled := !canQuery
    sendButtonDisabled := !canQuery
    analysisFocusDisabled := !canQuery
    uploadButtonDisabled := processing
    fileInputDisabled := processing
    endChatButtonDisabled := processing || !sessionActive
    thinkingVisible := processing }

/-- `resetUI()`: clear the session, the custom prompts and their injected
options, the chatbox, the status lines, the focus selection, the polling
timer and the fetched flag, then `setProcessingState(false)` (the second
JS parameter defaults to `false`). -/
def resetUI (s : AppState) : AppState :=
  let s := { s with
    currentSessionId := none
    customPrompts := []
    focusOptions := s.focusOptions.filter (fun p => !(jsStartsWith p.1 "custom_"))
    chatbox := [⟨MsgKind.status,
      "Please upload a document and select an analysis focus to begin."⟩]
    uploadStatusText := ""
    cleanupStatusText := ""
    analysisFocusValue := "general"
    analysisPollingTimer := none
    analysisResultFetched := false }
  setProcessingState false false s

/-- Body of a `/get_analysis_status/` response. -/
structure StatusResponse where
  analysis_status : String
  message : Option String
  analysis_error : Option String
deriving DecidableEq, Repr

/-- Body of a `/get_analysis_result/` response. -/
structure ResultResponse where
  analysis_status : String
  message : Option String
  analysis_data : String
deriving DecidableEq, Repr

/-- Body of a `/upload` response. -/
structure UploadResponse where
  success : Bool
  session_id : String
  filename : String
  message : Option String
  analysis_status : String
deriving DecidableEq, Repr

/-- Body of a `/end-session` response. -/
structure EndResponse where
  success : Bool
  message : Option String
deriving DecidableEq, Repr

/-- Abstraction of the presentation-only pipeline
`syntaxHighlight(JSON.stringify(result.analysis_data, null, 2))` wrapped in
a pre element.  The payload is opaque to the controller; the exact HTML
formatting is not load-bearing for any property here, only that the
rendered payload is appended as one analysis-json entry. -/
def renderAnalysisData (d : String) : String :=
  "<pre>" ++ d ++ "</pre>"

/-- Synchronous prefix of `displayAnalysisResult(sessionId)` up to its
`fetch`: if `analysisResultFetched` is already set, return without issuing
the fetch; otherwise set the flag, log the fetching message, and issue the
fetch of `/get_analysis_result/` (returned Bool = fetch issued). -/
def displayEntry (s : AppState) : AppState × Bool :=
  if s.analysisResultFetched then (s, false)
  else
    (addMessage "Fetching detailed analysis result..." MsgKind.status
      { s with analysisResultFetched := true }, true)

/-- Continuation of `displayAnalysisResult` once the result response
arrives (`none` = network error caught by the catch block). -/
def displayResume (o : Option (Bool × ResultResponse)) (s : AppState) : AppState :=
  match o with
  | some (ok, r) =>
    if ok && (r.analysis_status == "completed") then
      let s := addMessage "Detailed analysis complete! Displaying results:" MsgKind.status s
      let s := addMessage (renderAnalysisData r.analysis_data) MsgKind.analysisJson s
      setProcessingState false false s
    else
      let s := { s with analysisResultFetched := false }
      let s := addMessage
        ("Failed to retrieve final analysis result: " ++ jsOr r.message "Unknown error")
        MsgKind.status s
      setProcessingState false true s
  | none =>
    let s := { s with analysisResultFetched := false }
    let s := addMessage "Network or server error while fetching analysis result."
      MsgKind.status s
    setProcessingState false true s

/-- Synchronous prefix of `pollAnalysisStatus(sessionId)` up to its
`fetch`: if a result has already been fetched, clear the interval and
return without issuing the status fetch; otherwise issue it
(returned Bool = status fetch issued). -/
def pollEntry (s : AppState) : AppState × Bool :=
  if s.analysisResultFetched then
    ({ s with analysisPollingTimer := none }, false)
  else (s, true)

/-- Continuation of `pollAnalysisStatus` once the status response arrives.
On a "completed" status it stops the interval and then runs the
synchronous prefix of `displayAnalysisResult` (returned Bool = result
fetch issued by that call). -/
def pollResume (o : Option (Bool × StatusResponse)) (s : AppState) : AppState × Bool :=
  match o with
  | some (ok, r) =>
    if !ok then
      let s := addMessage
        ("Analysis status check failed: " ++ jsOr r.message "Server error") MsgKind.status s
      let s := { s with analysisPollingTimer := none }
      (setProcessingState false true s, false)
    else
      let s := { s with
        uploadStatusText := "Analysis Status: " ++ replaceUnderscores r.analysis_status }
      if r.analysis_status == "completed" then
        let s := { s with analysisPollingTimer := none }
        let s := addMessage
          "Analysis completed successfully on server. Preparing to display results..."
          MsgKind.status s
        let s := { s with
          uploadStatusText := "✅ Analysis Complete: \"" ++ jsShow r.message ++ "\"" }
        displayEntry s
      else if r.analysis_status == "failed" then
        let s := { s with analysisPollingTimer := none }
        let s := addMessage
          ("Detailed analysis failed: " ++ jsOr r.analysis_error (jsOr r.message "Unknown error"))
          MsgKind.status s
        let s := { s with
          uploadStatusText :=
            "❌ Analysis Failed: " ++ jsOr r.analysis_error (jsOr r.message "Unknown error") }
        (setProcessingState false true s, false)
      else
        let s := addMessage
          ("Analysis in progress (" ++ r.analysis_status ++ ")... Please wait.")
          MsgKind.status s
        (setProcessingState true true s, false)
  | none =>
    let s := addMessage
      "Network error during analysis status check. Please check your connection."
      MsgKind.status s
    let s := { s with analysisPollingTimer := none }
    (setProcessingState false true s, false)

/-- Synchronous prefix of the upload-button click handler up to its
`fetch("/upload", ...)`; `file` is `fileInput.files[0]`
(returned Bool = upload request issued). -/
def uploadEntry (file : Option String) (s : AppState) : AppState × Bool :=
  match file with
  | none => ({ s with uploadStatusText := "Please select a file first." }, false)
  | some name =>
    let s :=
      if s.currentSessionId.isSome then
        addMessage "Uploading new document..." MsgKind.status s
      else { s with chatbox := [] }
    let s := addMessage ("Uploading \"" ++ name ++ "\"...") MsgKind.status s
    let s := { s with
      uploadStatusText := "Uploading \"" ++ name ++ "\"..."
      cleanupStatusText := "" }
    (setProcessingState true true s, true)

/-- Continuation of the upload handler once the `/upload` response
arrives.  On success it stores the session id, assigns the interval timer
(`timerToken` models the token `setInterval` returns), then calls
`pollAnalysisStatus` for the initial immediate poll — whose synchronous
prefix runs before the final `setProcessingState(true, true)`
(returned Bool = status fetch issued by that immediate poll). -/
def uploadResume (o : Option (Bool × UploadResponse)) (timerToken : Nat)
    (s : AppState) : AppState × Bool :=
  match o with
  | some (ok, r) =>
    if ok && r.success then
      let s := { s with currentSessionId := some r.session_id }
      let s := addMessage
        ("Document \"" ++ r.filename ++ "\" uploaded. Starting detailed analysis...")
        MsgKind.status s
      let s := { s with
        uploadStatusText :=
          "Uploading complete. Analysis status: " ++ replaceUnderscores r.analysis_status }
      let s := { s with analysisPollingTimer := some timerToken }
      let sb := pollEntry s
      (setProcessingState true true sb.1, sb.2)
    else
      let s := { s with uploadStatusText := "❌ Error: " ++ jsOr r.message "Upload failed" }
      let s := addMessage ("Error processing document: " ++ jsShow r.message ++ ".")
        MsgKind.status s
      (setProcessingState false true s, false)
  | none =>
    let s := { s with uploadStatusText := "❌ Network or server error during upload." }
    let s := addMessage "Network or server error during upload. Check console."
      MsgKind.status s
    (setProcessingState false true s, false)

/-- Payload of the `POST /query` request body. -/
structure QueryPayload where
  session_id : String
  query : String
  focus_area : String
  custom_instructions : Option String
deriving DecidableEq, Repr

/-- `options[selectedIndex].text` for the option whose value is `v`. -/
def optionText (opts : List (String × String)) (v : String) : String :=
  jsShow ((opts.find? (fun p => p.1 = v)).map (fun p => p.2))

/-- Synchronous prefix of `submitQuery()` up to its `fetch("/query", ...)`.
Returns the new state and `some payload` when the request is issued,
`none` when the guard rejects the submission locally. -/
def submitQueryEntry (s : AppState) : AppState × Option QueryPayload :=
  let query := jsTrim s.queryInputValue
  let focusAreaValue := s.analysisFocusValue
  match s.currentSessionId with
  | none =>
    (addMessage "Please wait for the detailed analysis to complete before asking questions."
      MsgKind.status s, none)
  | some sid =>
    if query = "" ∨ s.isProcessing = true ∨ focusAreaValue = ""
        ∨ s.analysisPollingTimer.isSome = true then
      (addMessage "Please wait for the detailed analysis to complete before asking questions."
        MsgKind.status s, none)
    else
      let selectedFocusText := optionText s.focusOptions focusAreaValue
      let s1 := addMessage (query ++ " (Focus: " ++ selectedFocusText ++ ")") MsgKind.user s
      let s1 := { s1 with queryInputValue := "" }
      let s1 := setProcessingState true false s1
      let s1 := { s1 with cleanupStatusText := "" }
      let payload : QueryPayload :=
        { session_id := sid
          query := query
          focus_area := focusAreaValue
          custom_instructions := none }
      let payload :=
        if jsStartsWith focusAreaValue "custom_" then
          { payload with
            focus_area := "custom"
            custom_instructions := s.customPrompts.lookup focusAreaValue }
        else payload
      (s1, some payload)

/-- Synchronous prefix of the end-chat click handler up to its
`fetch("/end-session", ...)`: guard, log, processing state, cleanup status,
and the synchronous clearing of any active polling timer
(returned Bool = teardown request issued). -/
def endChatEntry (s : AppState) : AppState × Bool :=
  if s.currentSessionId.isNone = true ∨ s.isProcessing = true then (s, false)
  else
    let s := addMessage "Ending session..." MsgKind.status s
    let s := setProcessingState true true s
    let s := { s with cleanupStatusText := "Cleaning up..." }
    let s := { s with analysisPollingTimer := none }
    (s, true)

/-- Continuation of the end-chat handler once the `/end-session` response
arrives. -/
def endChatResume (o : Option (Bool × EndResponse)) (s : AppState) : AppState :=
  match o with
  | some (ok, r) =>
    if ok && r.success then
      let s := { s with cleanupStatusText := "✅ Resources cleaned up." }
      let s := addMessage "Session ended. It is safe to close the window." MsgKind.status s
      resetUI s
    else
      let s := { s with
        cleanupStatusText := "❌ Cleanup failed: " ++ jsOr r.message "Unknown error" }
      let s := addMessage ("Error ending session: " ++ jsShow r.message ++ ".") MsgKind.status s
      setProcessingState false false s
  | none =>
    let s := { s with cleanupStatusText := "❌ Network or server error." }
    let s := addMessage "Network or server error. Check console." MsgKind.status s
    setProcessingState false false s

/-- Insert `entry` immediately before the first option with value `key`
(`insertBefore` on the option found by `querySelector`), or append it when
that option is absent (the `appendChild` fallback). -/
def insertBeforeKey (key : String) (entry : String × String) :
    List (String × String) → List (String × String)
  | [] => [entry]
  | p :: rest =>
    if p.1 = key then entry :: p :: rest else p :: insertBeforeKey key entry rest

/-- The modal save-button click handler.  `now` is the value of
`Date.now()` at the click: the generated id is `custom_` followed by that
timestamp, and the instructions are stored by plain object assignment. -/
def modalSave (nameRaw instructionsRaw : String) (now : Nat) (s : AppState) : AppState :=
  let name := jsTrim nameRaw
  let instructions := jsTrim instructionsRaw
  if name = "" ∨ instructions = "" then s
  else
    let customId := "custom_" ++ toString now
    let s := { s with customPrompts := objSet s.customPrompts customId instructions }
    let s := { s with focusOptions := insertBeforeKey "add_custom" (customId, name) s.focusOptions }
    { s with analysisFocusValue := customId }

/-- The builtin options of the analysis-focus select in templates/index.html. -/
def initialFocusOptions : List (String × String) :=
  [("general", "General COEQWAL Analysis"),
   ("vulnerable_groups", "Focus: Vulnerable Groups"),
   ("severity_of_impact", "Focus: Severity of Impact"),
   ("mitigation_strategies", "Focus: Mitigation Strategies")]

/-- Page state after the DOMContentLoaded handler runs (its last statement
is `resetUI()`). -/
def initialState : AppState :=
  resetUI
    { currentSessionId := none
      isProcessing := false
      customPrompts := []
      analysisPollingTimer := none
      analysisResultFetched := false
      chatbox := []
      uploadStatusText := ""
      cleanupStatusText := ""
      queryInputValue := ""
      analysisFocusValue := "general"
      focusOptions := initialFocusOptions
      queryInputDisabled := true
      sendButtonDisabled := true
      analysisFocusDisabled := true
      uploadButtonDisabled := false
      fileInputDisabled := false
      endChatButtonDisabled := true
      thinkingVisible := false }

/-! Concrete response fixtures and reachable states used by the concrete
theorems below. -/

/-- Successful upload response whose job is still processing. -/
def uploadOkProcessing : UploadResponse :=
  { success := true, session_id := "s1", filename := "doc.pdf"
    message := none, analysis_status := "processing" }

/-- Successful upload response whose job is already completed. -/
def uploadOkCompleted : UploadResponse :=
  { success := true, session_id := "s2", filename := "doc2.pdf"
    message := none, analysis_status := "completed" }

/-- Status response: job still processing. -/
def stProcessing : StatusResponse :=
  { analysis_status := "processing", message := none, analysis_error := none }

/-- Status response: job completed. -/
def stCompleted : StatusResponse :=
  { analysis_status := "completed", message := some "done", analysis_error := none }

/-- Status response: job failed. -/
def stFailed : StatusResponse :=
  { analysis_status := "failed", message := some "boom", analysis_error := none }

/-- Result response carrying the completed analysis payload. -/
def resOk : ResultResponse :=
  { analysis_status := "completed", message := none, analysis_data := "score 7" }

/-- Result response whose body does not report completion. -/
def resBad : ResultResponse :=
  { analysis_status := "error", message := some "not ready", analysis_data := "" }

/-- Teardown response: success. -/
def endOk : EndResponse := { success := true, message := none }

/-- Teardown response: server-reported failure. -/
def endFail : EndResponse := { success := false, message := some "server busy" }

/-- State after a successful upload of doc.pdf with the analysis job still
processing: the interval timer (token 1) is set and the immediate poll is
in flight. -/
def sAfterUpload : AppState :=
  (uploadResume (some (true, uploadOkProcessing)) 1
    (uploadEntry (some "doc.pdf") initialState).1).1

/-- State after that poll reported "processing": analysis running. -/
def sAnalysisRunning : AppState :=
  (pollResume (some (true, stProcessing)) sAfterUpload).1

/-- State after a poll reported "failed": analysis failed, processing flag
off, timer cleared, session still bound. -/
def sAnalysisFailed : AppState :=
  (pollResume (some (true, stFailed)) sAfterUpload).1

/-- State after a successful end-session from `sAnalysisFailed`
(`resetUI` has run). -/
def sEnded : AppState :=
  endChatResume (some (true, endOk)) (endChatEntry sAnalysisFailed).1

/-- State after a stale poll response (a status request that was in flight
when the session ended) arrives on the reset state. -/
def sStale : AppState :=
  (pollResume (some (true, stProcessing)) sEnded).1

/-- State after the teardown request from `sAnalysisFailed` fails with a
server-reported error. -/
def sTeardownFailed : AppState :=
  endChatResume (some (true, endFail)) (endChatEntry sAnalysisFailed).1

/-- First custom-focus registration at timestamp 1700000000000. -/
def sReg1 : AppState :=
  modalSave "Equity lens" "Weigh equity outcomes." 1700000000000 initialState

/-- Second custom-focus registration in the same millisecond. -/
def sReg2 : AppState :=
  modalSave "Water rights" "Weigh water rights." 1700000000000 sReg1

/-- A Ready-like state with one registered custom focus selected and a
typed question, used to instantiate the custom-focus theorem. -/
def sCustomReady : AppState :=
  { currentSessionId := some "s1"
    isProcessing := false
    customPrompts := [("custom_1700000000000", "Check equity impacts.")]
    analysisPollingTimer := none
    analysisResultFetched := true
    chatbox := []
    uploadStatusText := ""
    cleanupStatusText := ""
    queryInputValue := "What are the impacts?"
    analysisFocusValue := "custom_1700000000000"
    focusOptions := insertBeforeKey "add_custom" ("custom_1700000000000", "Equity lens")
      initialFocusOptions
    queryInputDisabled := false
    sendButtonDisabled := false
    analysisFocusDisabled := false
    uploadButtonDisabled := false
    fileInputDisabled := false
    endChatButtonDisabled := false
    thinkingVisible := false }

/-- State of a fully completed session: the poll observed "completed" and
the result fetch succeeded, so `analysisResultFetched` is true, the timer
is cleared, processing is off and the upload button is enabled. -/
def sSessionDone : AppState :=
  displayResume (some (true, resOk))
    (pollResume (some (true, stCompleted)) sAfterUpload).1

/-- State after the user starts a second upload from the completed session
state without ending it: the upload handler never resets
`analysisResultFetched`, so the flag is still set when the response
arrives. -/
def sReupload : AppState :=
  (uploadEntry (some "doc2.pdf") sSessionDone).1

/-- Number of analysis-json result entries in a message log. -/
def countResultEntries : List Msg → Nat
  | [] => 0
  | m :: rest =>
    (if m.kind = MsgKind.analysisJson then 1 else 0) + countResultEntries rest

/-- Counting result entries distributes over list append. -/
theorem countResultEntries_append (l1 l2 : List Msg) :
    countResultEntries (l1 ++ l2) = countResultEntries l1 + countResultEntries l2 := by
  induction l1 with
  | nil => simp [countResultEntries]
  | cons m rest ih => simp [countResultEntries, ih]; omega

/-- The branch condition under which `displayAnalysisResult` takes one of
its failure paths: network error, non-2xx response, or a body whose
analysis_status is not "completed". -/
def resultFailureResponse (o : Option (Bool × ResultResponse)) : Bool :=
  match o with
  | none => true
  | some (ok, r) => !(ok && (r.analysis_status == "completed"))

/-- The branch condition under which the end-chat handler takes one of its
failure paths: network error, non-2xx response, or `success:false`. -/
def endFailureResponse (o : Option (Bool × EndResponse)) : Bool :=
  match o with
  | none => true
  | some (ok, r) => !(ok && r.success)

/-- Session statuses of the specification state machine. -/
inductive SpecStatus
  | Unbound
  | Uploading
  | AnalysisPending
  | AnalysisRunning
  | Ready
  | QueryInFlight
  | Ending
  | Ended
  | Failed
deriving DecidableEq, Repr

/-- Enablement of the four control groups. -/
structure Enablement where
  queryEnabled : Bool
  focusEnabled : Bool
  uploadEnabled : Bool
  endEnabled : Bool
deriving DecidableEq, Repr

/-- The control-surface projection exactly as the spec words it, written
for refinement comparison with the code: query input and focus selector
enabled iff status is exactly Ready; upload control enabled iff status is
not one of Uploading, Ending; end-session control enabled iff an id is
bound and status is not Ending. -/
def specControlProjection (st : SpecStatus) (idBound : Bool) : Enablement :=
  { queryEnabled := decide (st = SpecStatus.Ready)
    focusEnabled := decide (st = SpecStatus.Ready)
    uploadEnabled := !(decide (st = SpecStatus.Uploading) || decide (st = SpecStatus.Ending))
    endEnabled := idBound && !(decide (st = SpecStatus.Ending)) }

/-- The enablement the code actually exhibits: the negations of the
disabled flags assigned by `setProcessingState`. -/
def codeEnablement (s : AppState) : Enablement :=
  { queryEnabled := !s.queryInputDisabled
    focusEnabled := !s.analysisFocusDisabled
    uploadEnabled := !s.uploadButtonDisabled
    endEnabled := !s.endChatButtonDisabled }

/-- Looking up the key just written by `objSet` yields the written value. -/
theorem lookup_objSet_self (m : List (String × String)) (k v : String) :
    (objSet m k v).lookup k = some v := by
  induction m with
  | nil => simp [objSet, List.lookup]
  | cons p rest ih =>
    by_cases h : p.1 = k
    · simp [objSet, h, List.lookup]
    · have hb : (k == p.1) = false :=
        beq_eq_false_iff_ne.mpr (fun hh => h hh.symm)
      simp [objSet, h, List.lookup, hb, ih]

/-- Result of a successful upload whose response already reports
`analysis_status:"completed"`. -/
def sUploadCompletedPair : AppState × Bool :=
  uploadResume (some (true, uploadOkCompleted)) 7
    (uploadEntry (some "doc2.pdf") initialState).1

/-- C1: endSession does clear the polling timer synchronously before the
teardown request is issued, but a status-poll response that was in flight
when the session ended is NOT discarded on arrival: replayed on the
post-teardown reset state, it appends a log entry and sets the processing
flag, contradicting the required discard. -/
theorem stale_poll_after_end_mutates_state :
    (endChatEntry sAnalysisFailed).1.analysisPollingTimer = none ∧
    (endChatEntry sAnalysisFailed).2 = true ∧
    sStale.isProcessing = true ∧
    sStale.chatbox.length = sEnded.chatbox.length + 1 ∧
    sStale ≠ sEnded := by decide

/-- C3 counterexample: an upload whose response already reports
`analysis_status:"completed"` still creates the poller (interval token
assigned, immediate status fetch issued) and leaves the session in the
processing state with query controls disabled, instead of entering Ready
with no poller. -/
theorem upload_completed_still_creates_poller :
    sUploadCompletedPair.1.analysisPollingTimer = some 7 ∧
    sUploadCompletedPair.2 = true ∧
    sUploadCompletedPair.1.isProcessing = true ∧
    sUploadCompletedPair.1.queryInputDisabled = true := by decide

/-- C5 counterexample: in the reachable state where the analysis job is
running (upload succeeded, a poll reported "processing") the session id is
bound and the status is neither Uploading nor Ending, yet the code
disables both the end-session control and the upload control — while the
projection the spec words mandates has both enabled for the
AnalysisPending/AnalysisRunning statuses. -/
theorem enablement_differs_from_spec_projection :
    sAnalysisRunning.currentSessionId.isSome = true ∧
    (codeEnablement sAnalysisRunning).endEnabled = false ∧
    (codeEnablement sAnalysisRunning).uploadEnabled = false ∧
    (specControlProjection SpecStatus.AnalysisRunning true).endEnabled = true ∧
    (specControlProjection SpecStatus.AnalysisPending true).endEnabled = true ∧
    (specControlProjection SpecStatus.AnalysisRunning true).uploadEnabled = true ∧
    (specControlProjection SpecStatus.AnalysisPending true).uploadEnabled = true := by decide

/-- C6 counterexample: two consecutive timer ticks with no response
arriving in between both issue a status request — the second tick is not
skipped (the entry guard depends only on `analysisResultFetched`, not on
any in-flight marker), so two polls are outstanding at once. -/
theorem second_tick_not_skipped :
    (pollEntry sAfterUpload).2 = true ∧
    (pollEntry sAfterUpload).1 = sAfterUpload ∧
    (pollEntry (pollEntry sAfterUpload).1).2 = true := by decide

/-- C7 counterexample: starting from the pre-Ending state in which the
analysis had failed (query input disabled), a failed teardown leaves the
session id in place but recomputes the controls as
`setProcessingState(false, false)`: the query input comes back enabled,
so the exact pre-Ending state is not restored. -/
theorem teardown_failure_not_exact_restore :
    sAnalysisFailed.queryInputDisabled = true ∧
    sTeardownFailed.currentSessionId = sAnalysisFailed.currentSessionId ∧
    sTeardownFailed.queryInputDisabled = false ∧
    sTeardownFailed ≠ sAnalysisFailed := by decide

/-- C9 counterexample: two registrations in the same millisecond receive
the identical id `custom_1700000000000`; the second silently overwrites
the first entry's instructions (the map still has one entry) while the
save completes normally — two options are injected and the selection moves
to the colliding id — with no rejection or retry. -/
theorem same_millisecond_registration_overwrites :
    sReg1.customPrompts.lookup "custom_1700000000000" = some "Weigh equity outcomes." ∧
    sReg2.customPrompts.lookup "custom_1700000000000" = some "Weigh water rights." ∧
    sReg2.customPrompts.length = 1 ∧
    sReg2.analysisFocusValue = "custom_1700000000000" ∧
    sReg2.focusOptions.length = initialState.focusOptions.length + 2 := by decide

/-- C2: the analysis-json result entry is appended exactly once per
completed job even when two status responses both report "completed" in
quick succession: the first completion issues the single result fetch, the
second completion notification issues none (the `analysisResultFetched`
guard, set synchronously before the fetch, makes it a no-op for result
delivery), and after the result response arrives the log holds exactly one
more result entry than before. -/
theorem result_entry_appended_exactly_once
    (s : AppState) (rc : StatusResponse) (rr : ResultResponse)
    (h1 : s.analysisResultFetched = false)
    (h2 : rc.analysis_status = "completed")
    (h3 : rr.analysis_status = "completed") :
    (pollResume (some (true, rc)) s).2 = true ∧
    (pollResume (some (true, rc)) (pollResume (some (true, rc)) s).1).2 = false ∧
    countResultEntries (displayResume (some (true, rr))
        (pollResume (some (true, rc)) (pollResume (some (true, rc)) s).1).1).chatbox
      = countResultEntries s.chatbox + 1 := by
  simp [pollResume, displayEntry, displayResume, addMessage, setProcessingState,
    countResultEntries, renderAnalysisData, h1, h2, h3, countResultEntries_append]

/-- C2 witness: the double-completion interleaving evaluated on the
concrete post-upload state. -/
theorem result_entry_appended_exactly_once_witness :
    (pollResume (some (true, stCompleted)) sAfterUpload).2 = true ∧
    (pollResume (some (true, stCompleted))
      (pollResume (some (true, stCompleted)) sAfterUpload).1).2 = false ∧
    countResultEntries (displayResume (some (true, resOk))
        (pollResume (some (true, stCompleted))
          (pollResume (some (true, stCompleted)) sAfterUpload).1).1).chatbox
      = countResultEntries sAfterUpload.chatbox + 1 :=
  result_entry_appended_exactly_once sAfterUpload stCompleted resOk (by decide) rfl rfl

/-- C3 amended: a successful upload never enters Ready directly and its
poller decision ignores the returned analysis_status entirely (the
response body `r` is arbitrary here): the handler always leaves the
session in the processing state, and whether a poller survives depends
only on the `analysisResultFetched` flag — when no result has been
fetched yet (in particular on the first upload of a session) the interval
timer is assigned and the immediate status fetch issued even for a
"completed" job status, while on a re-upload after a fetched result (the
upload handler never resets the flag) the immediate poll's guard clears
the just-assigned timer and issues no request, leaving the session
processing with no poller at all. -/
theorem successful_upload_ignores_job_status
    (s : AppState) (tok : Nat) (r : UploadResponse)
    (hr : r.success = true) :
    (uploadResume (some (true, r)) tok s).1.isProcessing = true ∧
    (s.analysisResultFetched = false →
      (uploadResume (some (true, r)) tok s).1.analysisPollingTimer = some tok ∧
      (uploadResume (some (true, r)) tok s).2 = true) ∧
    (s.analysisResultFetched = true →
      (uploadResume (some (true, r)) tok s).1.analysisPollingTimer = none ∧
      (uploadResume (some (true, r)) tok s).2 = false) := by
  cases hf : s.analysisResultFetched <;>
    simp [uploadResume, pollEntry, addMessage, setProcessingState, hr, hf]

/-- C3 witness: both branches evaluated concretely — a first upload whose
response already reports "completed" (flag unset: timer kept, immediate
fetch issued, still processing), and a re-upload from the completed
session state (flag still set: timer destroyed, no fetch, still
processing). -/
theorem successful_upload_ignores_job_status_witness :
    (uploadResume (some (true, uploadOkCompleted)) 3 initialState).1.isProcessing = true ∧
    (uploadResume (some (true, uploadOkCompleted)) 3 initialState).1.analysisPollingTimer
      = some 3 ∧
    (uploadResume (some (true, uploadOkCompleted)) 3 initialState).2 = true ∧
    (uploadResume (some (true, uploadOkProcessing)) 9 sReupload).1.isProcessing = true ∧
    (uploadResume (some (true, uploadOkProcessing)) 9 sReupload).1.analysisPollingTimer
      = none ∧
    (uploadResume (some (true, uploadOkProcessing)) 9 sReupload).2 = false :=
  ⟨(successful_upload_ignores_job_status initialState 3 uploadOkCompleted rfl).1,
    ((successful_upload_ignores_job_status initialState 3 uploadOkCompleted rfl).2.1
      (by decide)).1,
    ((successful_upload_ignores_job_status initialState 3 uploadOkCompleted rfl).2.1
      (by decide)).2,
    (successful_upload_ignores_job_status sReupload 9 uploadOkProcessing rfl).1,
    ((successful_upload_ignores_job_status sReupload 9 uploadOkProcessing rfl).2.2
      (by decide)).1,
    ((successful_upload_ignores_job_status sReupload 9 uploadOkProcessing rfl).2.2
      (by decide)).2⟩

/-- C4: submitting a query while no session is bound, an operation is in
progress, or the polling timer is still active is rejected locally: no
payload is produced (hence no network request), exactly one status message
is appended, and the session variables and control enablement are
unchanged. -/
theorem query_rejected_without_network_when_not_ready
    (s : AppState)
    (h : s.currentSessionId = none ∨ s.isProcessing = true
      ∨ s.analysisPollingTimer.isSome = true) :
    submitQueryEntry s =
      (addMessage "Please wait for the detailed analysis to complete before asking questions."
        MsgKind.status s, none) ∧
    (submitQueryEntry s).1.currentSessionId = s.currentSessionId ∧
    (submitQueryEntry s).1.isProcessing = s.isProcessing ∧
    (submitQueryEntry s).1.analysisPollingTimer = s.analysisPollingTimer ∧
    (submitQueryEntry s).1.queryInputDisabled = s.queryInputDisabled ∧
    (submitQueryEntry s).2 = none := by
  have hmain : submitQueryEntry s =
      (addMessage "Please wait for the detailed analysis to complete before asking questions."
        MsgKind.status s, none) := by
    rcases h with h | h | h
    · simp [submitQueryEntry, h]
    · cases hc : s.currentSessionId <;> simp [submitQueryEntry, hc, h]
    · cases hc : s.currentSessionId <;> simp [submitQueryEntry, hc, h]
  refine ⟨hmain, ?_, ?_, ?_, ?_, ?_⟩ <;> rw [hmain] <;> simp [addMessage]

/-- C4 witness: a query submitted while the upload/analysis operation is
still processing is rejected locally. -/
theorem query_rejected_without_network_when_not_ready_witness :
    submitQueryEntry sAfterUpload =
      (addMessage "Please wait for the detailed analysis to complete before asking questions."
        MsgKind.status sAfterUpload, none) ∧
    (submitQueryEntry sAfterUpload).1.currentSessionId = sAfterUpload.currentSessionId ∧
    (submitQueryEntry sAfterUpload).1.isProcessing = sAfterUpload.isProcessing ∧
    (submitQueryEntry sAfterUpload).1.analysisPollingTimer
      = sAfterUpload.analysisPollingTimer ∧
    (submitQueryEntry sAfterUpload).1.queryInputDisabled
      = sAfterUpload.queryInputDisabled ∧
    (submitQueryEntry sAfterUpload).2 = none :=
  query_rejected_without_network_when_not_ready sAfterUpload (Or.inr (Or.inl (by decide)))

/-- C5 amended: the control-surface enablement is the pure function of the
processing flag, the analysis-running argument and session-boundness
computed by `setProcessingState`: query input and focus selector enabled
iff not processing, session bound and analysis not running; upload control
enabled iff not processing; end-session control enabled iff not processing
and session bound.  Recomputing the projection on the same state yields the
identical enablement. -/
theorem enablement_pure_function_of_flags (p a : Bool) (s : AppState) :
    codeEnablement (setProcessingState p a s) =
      { queryEnabled := !p && s.currentSessionId.isSome && !a
        focusEnabled := !p && s.currentSessionId.isSome && !a
        uploadEnabled := !p
        endEnabled := !p && s.currentSessionId.isSome } ∧
    setProcessingState p a (setProcessingState p a s) = setProcessingState p a s := by
  constructor
  · simp [codeEnablement, setProcessingState, Bool.not_or]
  · simp [setProcessingState]

/-- C6 amended: a timer tick of the poller is skipped only once the result
has been fetched; while the result is unfetched every tick issues a status
request and leaves the state unchanged, so a tick arriving while a
previous request is still in flight issues a second concurrent request
rather than being skipped. -/
theorem poll_tick_never_skipped_while_unfetched (s : AppState)
    (h : s.analysisResultFetched = false) :
    (pollEntry s).2 = true ∧ (pollEntry s).1 = s ∧
    (pollEntry (pollEntry s).1).2 = true := by
  simp [pollEntry, h]

/-- C6 witness: the tick behaviour evaluated on the initial state. -/
theorem poll_tick_never_skipped_while_unfetched_witness :
    (pollEntry initialState).2 = true ∧ (pollEntry initialState).1 = initialState ∧
    (pollEntry (pollEntry initialState).1).2 = true :=
  poll_tick_never_skipped_while_unfetched initialState (by decide)

/-- C7 amended: when the teardown request fails, the session id is kept
and the processing flag is cleared, so the user can invoke endSession
again (the retry guard passes); but the controls are recomputed as
`setProcessingState(false, false)` rather than restored, and the polling
timer cleared on entering teardown stays cleared. -/
theorem teardown_failure_keeps_session_retryable
    (s : AppState) (o : Option (Bool × EndResponse))
    (hid : s.currentSessionId.isSome = true)
    (hp : s.isProcessing = false)
    (hf : endFailureResponse o = true) :
    (endChatResume o (endChatEntry s).1).currentSessionId = s.currentSessionId ∧
    (endChatResume o (endChatEntry s).1).isProcessing = false ∧
    (endChatResume o (endChatEntry s).1).analysisPollingTimer = none ∧
    (endChatEntry (endChatResume o (endChatEntry s).1)).2 = true := by
  cases hc : s.currentSessionId with
  | none => rw [hc] at hid; simp at hid
  | some sid =>
    cases o with
    | none =>
      simp [endChatEntry, endChatResume, addMessage, setProcessingState, hc, hp]
    | some pr =>
      obtain ⟨ok, r⟩ := pr
      have hr : (ok && r.success) = false := by
        simp [endFailureResponse] at hf
        rcases hf with h | h <;> simp [h]
      simp [endChatEntry, endChatResume, addMessage, setProcessingState, hc, hp, hr]

/-- C7 witness: the failed teardown evaluated on the concrete pre-Ending
state in which the analysis had failed. -/
theorem teardown_failure_keeps_session_retryable_witness :
    (endChatResume (some (true, endFail)) (endChatEntry sAnalysisFailed).1).currentSessionId
      = sAnalysisFailed.currentSessionId ∧
    (endChatResume (some (true, endFail)) (endChatEntry sAnalysisFailed).1).isProcessing
      = false ∧
    (endChatResume (some (true, endFail)) (endChatEntry sAnalysisFailed).1).analysisPollingTimer
      = none ∧
    (endChatEntry (endChatResume (some (true, endFail))
      (endChatEntry sAnalysisFailed).1)).2 = true :=
  teardown_failure_keeps_session_retryable sAnalysisFailed (some (true, endFail))
    (by decide) (by decide) (by decide)

/-- C8: a query submitted with a registered custom focus id produces a
payload whose focus_area is the literal marker "custom" and whose
custom_instructions is the stored instructions text; the raw custom id is
not the transmitted focus_area (it cannot even equal "custom" because it
extends the prefix "custom_"). -/
theorem custom_focus_resolved_before_transmission
    (s : AppState) (sid raw instr : String)
    (hsid : s.currentSessionId = some sid)
    (hfv : s.analysisFocusValue = raw)
    (hcustom : jsStartsWith raw "custom_" = true)
    (hq : ¬ (jsTrim s.queryInputValue = ""))
    (hp : s.isProcessing = false)
    (ht : s.analysisPollingTimer = none)
    (hlook : s.customPrompts.lookup raw = some instr) :
    (submitQueryEntry s).2 = some
      { session_id := sid
        query := jsTrim s.queryInputValue
        focus_area := "custom"
        custom_instructions := some instr } ∧
    "custom" ≠ raw := by
  have hraw : ¬ (raw = "") := by
    intro h
    rw [h] at hcustom
    exact absurd hcustom (by decide)
  have hne : "custom" ≠ raw := by
    intro h
    rw [← h] at hcustom
    exact absurd hcustom (by decide)
  refine ⟨?_, hne⟩
  simp [submitQueryEntry, hsid, hfv, hcustom, hq, hp, ht, hraw, hlook]

/-- C8 witness: the resolution evaluated on a Ready-like state with the
custom focus custom_1700000000000 registered and selected. -/
theorem custom_focus_resolved_before_transmission_witness :
    (submitQueryEntry sCustomReady).2 = some
      { session_id := "s1"
        query := jsTrim sCustomReady.queryInputValue
        focus_area := "custom"
        custom_instructions := some "Check equity impacts." } ∧
    "custom" ≠ "custom_1700000000000" :=
  custom_focus_resolved_before_transmission sCustomReady "s1" "custom_1700000000000"
    "Check equity impacts." rfl rfl (by decide) (by decide) rfl rfl (by decide)

/-- C9 amended: the generated id is custom_ followed by Date.now(), so two
registrations in the same millisecond receive the identical id and the
second silently overwrites the instructions stored for the first; no
rejection or retry occurs. -/
theorem same_timestamp_ids_collide_and_overwrite
    (s : AppState) (n1 i1 n2 i2 : String) (t : Nat)
    (h1 : ¬ (jsTrim n1 = "")) (h2 : ¬ (jsTrim i1 = ""))
    (h3 : ¬ (jsTrim n2 = "")) (h4 : ¬ (jsTrim i2 = "")) :
    (modalSave n1 i1 t s).customPrompts.lookup ("custom_" ++ toString t)
      = some (jsTrim i1) ∧
    (modalSave n2 i2 t (modalSave n1 i1 t s)).customPrompts.lookup ("custom_" ++ toString t)
      = some (jsTrim i2) := by
  constructor
  · simp [modalSave, h1, h2, lookup_objSet_self]
  · simp [modalSave, h1, h2, h3, h4, lookup_objSet_self]

/-- C9 witness: the collision evaluated at timestamp 1700000000000 on the
initial state. -/
theorem same_timestamp_ids_collide_and_overwrite_witness :
    (modalSave "Equity lens" "Weigh equity outcomes." 1700000000000
        initialState).customPrompts.lookup ("custom_" ++ toString 1700000000000)
      = some (jsTrim "Weigh equity outcomes.") ∧
    (modalSave "Water rights" "Weigh water rights." 1700000000000
        (modalSave "Equity lens" "Weigh equity outcomes." 1700000000000
          initialState)).customPrompts.lookup ("custom_" ++ toString 1700000000000)
      = some (jsTrim "Weigh water rights.") :=
  same_timestamp_ids_collide_and_overwrite initialState "Equity lens"
    "Weigh equity outcomes." "Water rights" "Weigh water rights." 1700000000000
    (by decide) (by decide) (by decide) (by decide)

/-- C10: when the follow-up result fetch fails (network error, non-2xx
response, or a body not reporting completion), the already-fetched guard
is reset to false — a later completion notification may fetch again — and
the polling timer, cleared when completion was first observed, stays
cleared, so no automatic retry is initiated; after a successful fetch the
guard instead stays permanently set. -/
theorem result_fetch_failure_resets_guard
    (s : AppState) (rc : StatusResponse) (o : Option (Bool × ResultResponse))
    (rr : ResultResponse)
    (h1 : s.analysisResultFetched = false)
    (h2 : rc.analysis_status = "completed")
    (hfail : resultFailureResponse o = true)
    (h3 : rr.analysis_status = "completed") :
    (displayResume o (pollResume (some (true, rc)) s).1).analysisResultFetched = false ∧
    (displayResume o (pollResume (some (true, rc)) s).1).analysisPollingTimer = none ∧
    (displayEntry (displayResume o (pollResume (some (true, rc)) s).1)).2 = true ∧
    (displayResume (some (true, rr))
      (pollResume (some (true, rc)) s).1).analysisResultFetched = true := by
  cases o with
  | none =>
    simp [pollResume, displayEntry, displayResume, addMessage, setProcessingState,
      h1, h2, h3]
  | some pr =>
    obtain ⟨ok, r⟩ := pr
    have hr : (ok && (r.analysis_status == "completed")) = false := by
      simp [resultFailureResponse] at hfail
      rcases hfail with h | h <;> simp [h]
    simp [pollResume, displayEntry, displayResume, addMessage, setProcessingState,
      h1, h2, h3, hr]

/-- C10 witness: the failure path evaluated on the post-upload state with
a result body not reporting completion. -/
theorem result_fetch_failure_resets_guard_witness :
    (displayResume (some (true, resBad))
      (pollResume (some (true, stCompleted)) sAfterUpload).1).analysisResultFetched
      = false ∧
    (displayResume (some (true, resBad))
      (pollResume (some (true, stCompleted)) sAfterUpload).1).analysisPollingTimer
      = none ∧
    (displayEntry (displayResume (some (true, resBad))
      (pollResume (some (true, stCompleted)) sAfterUpload).1)).2 = true ∧
    (displayResume (some (true, resOk))
      (pollResume (some (true, stCompleted)) sAfterUpload).1).analysisResultFetched
      = true :=
  result_fetch_failure_resets_guard sAfterUpload stCompleted (some (true, resBad)) resOk
    (by decide) rfl (by decide) rfl

end Coeqwal

